import Mathlib

/-!
Verification of the configuration and client-cache core of the Azure
secrets backend (`azuresecrets` package).

The backend's cache-invalidation logic is embedded directly from
`backend.go`.  The configuration path handlers (create/update, read,
delete) and the client-settings resolver are not part of the visible
sources (only their tests are), so they are modelled from the
specification, as marked on each definition.
-/

namespace AzureSecrets

/-- A value appearing in a response data map: the flat key/value record the
backend returns on a config read (strings, integer seconds, booleans). -/
inductive FieldVal where
  | str (s : String)
  | nat (n : Nat)
  | bool (b : Bool)
deriving DecidableEq, Repr

/-- Modelled from the spec: the single mutable configuration record
(§3 Data Model), one instance per backend mount.  Duration-typed fields
are stored normalized to integer seconds. -/
structure AzureConfig where
  subscriptionId : String
  tenantId : String
  clientId : String
  clientSecret : String
  environment : String
  rootPasswordTtl : Nat
  identityTokenAudience : String
  identityTokenTtl : Nat
  rotationWindow : Nat
  rotationPeriod : Nat
  rotationSchedule : String
  rotationDisabled : Bool
deriving DecidableEq, Repr

/-- Modelled from the spec: the zero-value configuration — empty strings,
zero numbers, false booleans (§4.2 read, §6 delete). -/
def zeroConfig : AzureConfig :=
  { subscriptionId := ""
    tenantId := ""
    clientId := ""
    clientSecret := ""
    environment := ""
    rootPasswordTtl := 0
    identityTokenAudience := ""
    identityTokenTtl := 0
    rotationWindow := 0
    rotationPeriod := 0
    rotationSchedule := ""
    rotationDisabled := false }

/-- Modelled from the spec: a duration-typed input value — every
duration-typed field accepts both string durations and integer seconds
(§3, §4.2 validation step (a)). -/
inductive DurationInput where
  | seconds (n : Nat)
  | str (s : String)
deriving DecidableEq, Repr

/-- Modelled from the spec: parse a duration string to whole seconds.
A bare digit string means seconds; a digit string followed by the unit
`s`, `m` or `h` means seconds, minutes or hours; anything else is an
invalid format (§4.2 step (a): invalid format is a validation error). -/
def parseGoDuration (s : String) : Option Nat :=
  let digits := s.data.takeWhile Char.isDigit
  let unit := s.data.dropWhile Char.isDigit
  if digits = [] then none
  else
    let n := digits.foldl (fun acc ch => 10 * acc + (ch.toNat - 48)) 0
    if unit = [] then some n
    else if unit = ['s'] then some n
    else if unit = ['m'] then some (60 * n)
    else if unit = ['h'] then some (3600 * n)
    else none

/-- Modelled from the spec: resolve a duration-typed input to seconds. -/
def parseDuration : DurationInput → Option Nat
  | .seconds n => some n
  | .str s => parseGoDuration s

/-- Modelled from the spec: a configuration create/update request body —
any subset of the configuration fields (§6); absent fields are `none`.
`resource` is the reserved storage-rotation field name that is not part
of this engine's configuration (§3, §4.2 step (d)). -/
structure ConfigRequest where
  subscriptionId : Option String := none
  tenantId : Option String := none
  clientId : Option String := none
  clientSecret : Option String := none
  environment : Option String := none
  rootPasswordTtl : Option DurationInput := none
  identityTokenAudience : Option String := none
  identityTokenTtl : Option DurationInput := none
  rotationWindow : Option DurationInput := none
  rotationPeriod : Option DurationInput := none
  rotationSchedule : Option String := none
  rotationDisabled : Option Bool := none
  resource : Option String := none
deriving DecidableEq, Repr

/-- Modelled from the spec: the error taxonomy (§7); configuration
validation failures are `invalidConfiguration`. -/
inductive ConfigError where
  | invalidConfiguration (msg : String)
deriving DecidableEq, Repr

/-- Modelled from the spec: the closed set of named cloud environments
(§4.1): public, China and US government clouds. -/
def azureEnvironments : List String :=
  ["AZUREPUBLICCLOUD", "AZURECHINACLOUD", "AZUREUSGOVERNMENTCLOUD"]

/-- Modelled from the spec: the default `rootPasswordTtl` of six months,
15,768,000 seconds (§3, §4.2 step (b)). -/
def defaultRootPasswordTtl : Nat := 15768000

/-- Modelled from the spec: parse one duration-typed request field,
keeping the existing stored value when the field is absent (§4.2:
unspecified fields are left untouched; step (a): invalid format is an
`InvalidConfiguration` error). -/
def parseField (d : Option DurationInput) (existing : Nat) :
    Except ConfigError Nat :=
  match d with
  | none => .ok existing
  | some di =>
    match parseDuration di with
    | some n => .ok n
    | none => .error (.invalidConfiguration "invalid duration format")

/-- Modelled from the spec: merge the request onto the base configuration —
supplied fields replace the base value, absent fields keep it (§4.2).
The duration fields are passed already parsed. -/
def mergeConfig (base : AzureConfig) (req : ConfigRequest)
    (rptl itttl rw rp : Nat) : AzureConfig :=
  { subscriptionId := req.subscriptionId.getD base.subscriptionId
    tenantId := req.tenantId.getD base.tenantId
    clientId := req.clientId.getD base.clientId
    clientSecret := req.clientSecret.getD base.clientSecret
    environment := req.environment.getD base.environment
    rootPasswordTtl := rptl
    identityTokenAudience := req.identityTokenAudience.getD base.identityTokenAudience
    identityTokenTtl := itttl
    rotationWindow := rw
    rotationPeriod := rp
    rotationSchedule := req.rotationSchedule.getD base.rotationSchedule
    rotationDisabled := req.rotationDisabled.getD base.rotationDisabled }

/-- Modelled from the spec: fill the default root password TTL when the
merged value is unset (zero), §4.2 step (b). -/
def applyDefaults (c : AzureConfig) : AzureConfig :=
  if c.rootPasswordTtl = 0 then
    { c with rootPasswordTtl := defaultRootPasswordTtl }
  else c

/-- Sequencing of fallible validation steps: propagate the first error,
otherwise continue with the parsed value. -/
def andThen (x : Except ConfigError Nat)
    (f : Nat → Except ConfigError AzureConfig) : Except ConfigError AzureConfig :=
  match x with
  | .ok n => f n
  | .error e => .error e

/-- Modelled from the spec: `createOrUpdate` (§4.2).  Merges the request
onto the stored configuration (or onto the zero-value configuration when
none is stored), then validates in order: (a) duration parsing, (b) the
root password TTL default, (c) mutual exclusivity of `clientSecret` and
`identityTokenAudience`, (d) rejection of the reserved storage-rotation
combination (a bare `rotationPeriod` together with the reserved
`resource` field and none of this engine's rotation contract fields),
(e) environment validation against the closed enumeration. -/
def createOrUpdate (stored : Option AzureConfig) (req : ConfigRequest) :
    Except ConfigError AzureConfig :=
  let base := stored.getD zeroConfig
  andThen (parseField req.rootPasswordTtl base.rootPasswordTtl) fun rptl =>
  andThen (parseField req.identityTokenTtl base.identityTokenTtl) fun ittl =>
  andThen (parseField req.rotationWindow base.rotationWindow) fun rowin =>
  andThen (parseField req.rotationPeriod base.rotationPeriod) fun rper =>
  let c := applyDefaults (mergeConfig base req rptl ittl rowin rper)
  if c.clientSecret ≠ "" ∧ c.identityTokenAudience ≠ "" then
    .error (.invalidConfiguration
      "client_secret and identity_token_audience are mutually exclusive")
  else if req.resource.isSome ∧ req.rotationPeriod.isSome ∧
      req.rotationSchedule = none ∧ req.rotationDisabled = none then
    .error (.invalidConfiguration
      "rotation_period with reserved storage-rotation fields is not supported")
  else if c.environment ≠ "" ∧ c.environment ∉ azureEnvironments then
    .error (.invalidConfiguration "invalid environment")
  else
    .ok c

/-- Modelled from the spec: the state transition of a config write
request.  On success the normalized record is persisted; validation
errors are reported before any persistence, so on error the stored
configuration is unchanged (§7 propagation policy). -/
def configWriteStep (st : Option AzureConfig) (req : ConfigRequest) :
    Option AzureConfig × Option ConfigError :=
  match createOrUpdate st req with
  | .ok c => (some c, none)
  | .error e => (st, some e)

/-- Modelled from the spec: the response data of a config read — the full
normalized record as a flat key/value structure, every field materialized
with its zero value when absent, and secret material (`client_secret`)
redacted, never returned (§3 lifecycle, §4.2 read, §6). -/
def configReadData (st : Option AzureConfig) : List (String × FieldVal) :=
  let c := st.getD zeroConfig
  [("subscription_id", .str c.subscriptionId),
   ("tenant_id", .str c.tenantId),
   ("client_id", .str c.clientId),
   ("environment", .str c.environment),
   ("root_password_ttl", .nat c.rootPasswordTtl),
   ("identity_token_audience", .str c.identityTokenAudience),
   ("identity_token_ttl", .nat c.identityTokenTtl),
   ("rotation_window", .nat c.rotationWindow),
   ("rotation_period", .nat c.rotationPeriod),
   ("rotation_schedule", .str c.rotationSchedule),
   ("disable_automated_rotation", .bool c.rotationDisabled)]

/-- Modelled from the spec: `delete` removes the stored record (§4.2);
a subsequent read materializes the all-zero-value shape. -/
def configDelete (_st : Option AzureConfig) : Option AzureConfig := none

/-- Modelled from the spec: the derived client settings (§3, §4.3); the
graph endpoint is resolved from the environment. -/
structure ClientSettings where
  subscriptionId : String
  tenantId : String
  graphURI : String
deriving DecidableEq, Repr

/-- Modelled from the spec: the environment-to-graph-endpoint table of
the cloud environment resolver (§4.1), with the empty name defaulting to
the public cloud; a non-empty name outside the enumeration fails. -/
def environmentGraphURI (name : String) : Option String :=
  match name with
  | "" => some "https://graph.microsoft.com"
  | "AZUREPUBLICCLOUD" => some "https://graph.microsoft.com"
  | "AZURECHINACLOUD" => some "https://microsoftgraph.chinacloudapi.cn"
  | "AZUREUSGOVERNMENTCLOUD" => some "https://graph.microsoft.us"
  | _ => none

/-- Modelled from the spec: `getClientSettings` (§4.3) — derives the
concrete client parameter set from a configuration; fails with
`InvalidConfiguration` when required identifiers are missing or the
environment does not resolve. -/
def getClientSettings (c : AzureConfig) : Except ConfigError ClientSettings :=
  if c.subscriptionId = "" then
    .error (.invalidConfiguration "subscription_id is required")
  else if c.tenantId = "" then
    .error (.invalidConfiguration "tenant_id is required")
  else
    match environmentGraphURI c.environment with
    | some uri =>
      .ok { subscriptionId := c.subscriptionId
            tenantId := c.tenantId
            graphURI := uri }
    | none => .error (.invalidConfiguration "invalid environment")

/-- The backend's mutable state embedded from `backend.go`: the cached
client (a `nil`-able pointer, modelled as an `Option` over an opaque
handle) and the settings field restored around writes by the test
harness. -/
structure AzureSecretBackend where
  client : Option Nat
  settings : Option Nat
deriving DecidableEq, Repr

/-- Embedded from `backend.go` (`reset`): clears the backend's cached
client so a new one is created with updated settings. -/
def reset (b : AzureSecretBackend) : AzureSecretBackend :=
  { b with client := none }

/-- Embedded from `backend.go` (`invalidate`): on an invalidation key,
reset the backend when the key is `config` (the only case of the switch);
any other key falls through and leaves the backend untouched. -/
def invalidate (b : AzureSecretBackend) (key : String) : AzureSecretBackend :=
  if key = "config" then reset b else b

/-- Concrete request from the test suite: a static-credential create with
`root_password_ttl` omitted. -/
def reqRootDefault : ConfigRequest :=
  { subscriptionId := some "a228ceec-bf1a-4411-9f95-39678d8cdb34"
    tenantId := some "7ac36e27-80fc-4209-a453-e8ad83dc18c2"
    clientId := some "testClientId"
    clientSecret := some "testClientSecret" }

/-- Concrete request from the test suite: both `client_secret` and
`identity_token_audience` non-empty. -/
def reqMutualExclusive : ConfigRequest :=
  { reqRootDefault with
    environment := some "AZURECHINACLOUD"
    identityTokenAudience := some "vault-azure-secrets-d0f0d253" }

/-- Concrete request from the test suite: `root_password_ttl` given as the
duration string `1m`. -/
def reqRootTtlOneMinute : ConfigRequest :=
  { reqRootDefault with rootPasswordTtl := some (.str "1m") }

/-- Concrete request from the test suite: the reserved storage-rotation
triple `tenant_id` + `resource` + bare numeric `rotation_period`. -/
def reqRotationContract : ConfigRequest :=
  { tenantId := some "tid"
    resource := some "res"
    rotationPeriod := some (.seconds 10) }

/-- Concrete request from the test suite: an unrecognized environment. -/
def reqInvalidEnv : ConfigRequest :=
  { environment := some "invalidEnv" }

/-- Concrete request from the test suite: an update supplying only
`tenant_id`. -/
def reqTenantOnly : ConfigRequest :=
  { tenantId := some "800e371d-ee51-4145-9ac8-5c43e4ceb79b" }

/-- A federated-identity ("WIF") create request: no `client_id` and no
`client_secret`, with `identity_token_ttl` and `identity_token_audience`
set. -/
def wifRequest (sub ten aud : String) (n : Nat) : ConfigRequest :=
  { subscriptionId := some sub
    tenantId := some ten
    identityTokenTtl := some (.seconds n)
    identityTokenAudience := some aud }

/-- Concrete stored configuration: the result of creating
`reqRootDefault` (as read back by the test suite). -/
def cfgFullExample : AzureConfig :=
  { subscriptionId := "a228ceec-bf1a-4411-9f95-39678d8cdb34"
    tenantId := "7ac36e27-80fc-4209-a453-e8ad83dc18c2"
    clientId := "testClientId"
    clientSecret := "testClientSecret"
    environment := ""
    rootPasswordTtl := 15768000
    identityTokenAudience := ""
    identityTokenTtl := 0
    rotationWindow := 0
    rotationPeriod := 0
    rotationSchedule := ""
    rotationDisabled := false }

/-- Concrete stored configuration with the China cloud environment. -/
def cfgChinaExample : AzureConfig :=
  { cfgFullExample with environment := "AZURECHINACLOUD", rootPasswordTtl := 86400 }

theorem andThen_ok (n : Nat) (f : Nat → Except ConfigError AzureConfig) :
    andThen (.ok n) f = f n := rfl

theorem andThen_error (e : ConfigError) (f : Nat → Except ConfigError AzureConfig) :
    andThen (.error e) f = .error e := rfl

theorem parseField_none_eq (x : Nat) : parseField none x = .ok x := rfl

theorem parseField_seconds_eq (n x : Nat) :
    parseField (some (.seconds n)) x = .ok n := rfl

theorem applyDefaults_subscriptionId (c : AzureConfig) :
    (applyDefaults c).subscriptionId = c.subscriptionId := by
  unfold applyDefaults; split <;> rfl

theorem applyDefaults_tenantId (c : AzureConfig) :
    (applyDefaults c).tenantId = c.tenantId := by
  unfold applyDefaults; split <;> rfl

theorem applyDefaults_clientId (c : AzureConfig) :
    (applyDefaults c).clientId = c.clientId := by
  unfold applyDefaults; split <;> rfl

theorem applyDefaults_clientSecret (c : AzureConfig) :
    (applyDefaults c).clientSecret = c.clientSecret := by
  unfold applyDefaults; split <;> rfl

theorem applyDefaults_environment (c : AzureConfig) :
    (applyDefaults c).environment = c.environment := by
  unfold applyDefaults; split <;> rfl

theorem applyDefaults_identityTokenAudience (c : AzureConfig) :
    (applyDefaults c).identityTokenAudience = c.identityTokenAudience := by
  unfold applyDefaults; split <;> rfl

theorem applyDefaults_identityTokenTtl (c : AzureConfig) :
    (applyDefaults c).identityTokenTtl = c.identityTokenTtl := by
  unfold applyDefaults; split <;> rfl

theorem applyDefaults_rotationWindow (c : AzureConfig) :
    (applyDefaults c).rotationWindow = c.rotationWindow := by
  unfold applyDefaults; split <;> rfl

theorem applyDefaults_rotationPeriod (c : AzureConfig) :
    (applyDefaults c).rotationPeriod = c.rotationPeriod := by
  unfold applyDefaults; split <;> rfl

theorem applyDefaults_rotationSchedule (c : AzureConfig) :
    (applyDefaults c).rotationSchedule = c.rotationSchedule := by
  unfold applyDefaults; split <;> rfl

theorem applyDefaults_rotationDisabled (c : AzureConfig) :
    (applyDefaults c).rotationDisabled = c.rotationDisabled := by
  unfold applyDefaults; split <;> rfl

theorem applyDefaults_rootPasswordTtl (c : AzureConfig) :
    (applyDefaults c).rootPasswordTtl =
      if c.rootPasswordTtl = 0 then defaultRootPasswordTtl
      else c.rootPasswordTtl := by
  unfold applyDefaults; split <;> simp_all

theorem configWriteStep_fails_of_not_ok (st : Option AzureConfig)
    (req : ConfigRequest) (h : ∀ c, createOrUpdate st req ≠ .ok c) :
    (configWriteStep st req).1 = st ∧ ((configWriteStep st req).2).isSome := by
  unfold configWriteStep
  cases hc : createOrUpdate st req with
  | ok c => exact absurd hc (h c)
  | error e => exact ⟨rfl, rfl⟩

theorem configWriteStep_ok (st : Option AzureConfig) (req : ConfigRequest)
    (h : (configWriteStep st req).2 = none) :
    ∃ c, createOrUpdate st req = .ok c ∧ (configWriteStep st req).1 = some c := by
  unfold configWriteStep at h ⊢
  cases hc : createOrUpdate st req with
  | ok c => exact ⟨c, rfl, rfl⟩
  | error e => rw [hc] at h; simp at h

theorem createOrUpdate_ok_inversion (st : Option AzureConfig)
    (req : ConfigRequest) (c : AzureConfig)
    (h : createOrUpdate st req = .ok c) :
    ∃ rptl ittl rowin rper,
      parseField req.rootPasswordTtl (st.getD zeroConfig).rootPasswordTtl = .ok rptl ∧
      parseField req.identityTokenTtl (st.getD zeroConfig).identityTokenTtl = .ok ittl ∧
      parseField req.rotationWindow (st.getD zeroConfig).rotationWindow = .ok rowin ∧
      parseField req.rotationPeriod (st.getD zeroConfig).rotationPeriod = .ok rper ∧
      c = applyDefaults (mergeConfig (st.getD zeroConfig) req rptl ittl rowin rper) ∧
      ¬(c.clientSecret ≠ "" ∧ c.identityTokenAudience ≠ "") ∧
      ¬(req.resource.isSome ∧ req.rotationPeriod.isSome ∧
        req.rotationSchedule = none ∧ req.rotationDisabled = none) ∧
      ¬(c.environment ≠ "" ∧ c.environment ∉ azureEnvironments) := by
  simp only [createOrUpdate] at h
  cases h1 : parseField req.rootPasswordTtl (st.getD zeroConfig).rootPasswordTtl with
  | error e => rw [h1] at h; rw [andThen_error] at h; exact Except.noConfusion h
  | ok rptl =>
  rw [h1] at h; simp only [andThen_ok] at h
  cases h2 : parseField req.identityTokenTtl (st.getD zeroConfig).identityTokenTtl with
  | error e => rw [h2] at h; rw [andThen_error] at h; exact Except.noConfusion h
  | ok ittl =>
  rw [h2] at h; simp only [andThen_ok] at h
  cases h3 : parseField req.rotationWindow (st.getD zeroConfig).rotationWindow with
  | error e => rw [h3] at h; rw [andThen_error] at h; exact Except.noConfusion h
  | ok rowin =>
  rw [h3] at h; simp only [andThen_ok] at h
  cases h4 : parseField req.rotationPeriod (st.getD zeroConfig).rotationPeriod with
  | error e => rw [h4] at h; rw [andThen_error] at h; exact Except.noConfusion h
  | ok rper =>
  rw [h4] at h; simp only [andThen_ok] at h
  split at h
  · exact Except.noConfusion h
  · split at h
    · exact Except.noConfusion h
    · split at h
      · exact Except.noConfusion h
      · injection h with h
        subst h
        refine ⟨rptl, ittl, rowin, rper, rfl, rfl, rfl, rfl, rfl, ?_, ?_, ?_⟩ <;>
          assumption

/-- C10: for every invalidation key delivered to the backend's invalidate
callback, the cached client is cleared (set to nil) precisely when the
key equals "config" — the backend state becomes the same state with the
client field nil — and for every other key the backend, in particular its
cached-client field, is left unchanged. -/
theorem invalidate_clears_client_iff_config (b : AzureSecretBackend) (key : String) :
    (key = "config" → invalidate b key = { b with client := none }) ∧
    (key ≠ "config" → invalidate b key = b) := by
  constructor
  · intro h
    unfold invalidate
    rw [if_pos h]
    rfl
  · intro h
    unfold invalidate
    rw [if_neg h]

/-- Witness for C10: invalidating on "config" clears the cached client
and preserves the settings field; invalidating on another key leaves the
backend unchanged. -/
theorem invalidate_clears_client_iff_config_witness :
    invalidate { client := some 7, settings := some 3 } "config" =
      { client := none, settings := some 3 } ∧
    invalidate { client := some 7, settings := some 3 } "roles/team-a" =
      { client := some 7, settings := some 3 } :=
  ⟨(invalidate_clears_client_iff_config { client := some 7, settings := some 3 }
      "config").1 rfl,
   (invalidate_clears_client_iff_config { client := some 7, settings := some 3 }
      "roles/team-a").2 (by decide)⟩

/-- C4: after a delete of the configuration, a read succeeds (the read is
a total function on the state) and returns the full fixed-shape record
with every field at its zero value — empty strings, zero numbers
(including root_password_ttl = 0) and false booleans — not an empty map
and not an absent record. -/
theorem config_delete_read_zero (st : Option AzureConfig) :
    configReadData (configDelete st) =
      [("subscription_id", .str ""), ("tenant_id", .str ""),
       ("client_id", .str ""), ("environment", .str ""),
       ("root_password_ttl", .nat 0), ("identity_token_audience", .str ""),
       ("identity_token_ttl", .nat 0), ("rotation_window", .nat 0),
       ("rotation_period", .nat 0), ("rotation_schedule", .str ""),
       ("disable_automated_rotation", .bool false)] := rfl

/-- C6: for every stored configuration, a config read never includes the
client secret: the response keys are exactly the eleven non-secret
fields, "client_secret" is not among them, and every non-secret field is
returned with its stored value. -/
theorem config_read_redacts_client_secret (st : Option AzureConfig) :
    (configReadData st).map Prod.fst =
      ["subscription_id", "tenant_id", "client_id", "environment",
       "root_password_ttl", "identity_token_audience", "identity_token_ttl",
       "rotation_window", "rotation_period", "rotation_schedule",
       "disable_automated_rotation"] ∧
    "client_secret" ∉ (configReadData st).map Prod.fst ∧
    (configReadData st).lookup "subscription_id" =
      some (.str (st.getD zeroConfig).subscriptionId) ∧
    (configReadData st).lookup "tenant_id" =
      some (.str (st.getD zeroConfig).tenantId) ∧
    (configReadData st).lookup "client_id" =
      some (.str (st.getD zeroConfig).clientId) ∧
    (configReadData st).lookup "environment" =
      some (.str (st.getD zeroConfig).environment) ∧
    (configReadData st).lookup "root_password_ttl" =
      some (.nat (st.getD zeroConfig).rootPasswordTtl) ∧
    (configReadData st).lookup "identity_token_audience" =
      some (.str (st.getD zeroConfig).identityTokenAudience) ∧
    (configReadData st).lookup "identity_token_ttl" =
      some (.nat (st.getD zeroConfig).identityTokenTtl) ∧
    (configReadData st).lookup "rotation_window" =
      some (.nat (st.getD zeroConfig).rotationWindow) ∧
    (configReadData st).lookup "rotation_period" =
      some (.nat (st.getD zeroConfig).rotationPeriod) ∧
    (configReadData st).lookup "rotation_schedule" =
      some (.str (st.getD zeroConfig).rotationSchedule) ∧
    (configReadData st).lookup "disable_automated_rotation" =
      some (.bool (st.getD zeroConfig).rotationDisabled) := by
  refine ⟨rfl, ?_, rfl, rfl, rfl, rfl, rfl, rfl, rfl, rfl, rfl, rfl, rfl⟩
  have hkeys : (configReadData st).map Prod.fst =
      ["subscription_id", "tenant_id", "client_id", "environment",
       "root_password_ttl", "identity_token_audience", "identity_token_ttl",
       "rotation_window", "rotation_period", "rotation_schedule",
       "disable_automated_rotation"] := rfl
  rw [hkeys]
  decide

/-- C1: a configuration create or update whose request carries both a
non-empty client_secret and a non-empty identity_token_audience fails
with a validation error, the stored configuration is unchanged, and a
subsequent read returns the state from before the rejected write. -/
theorem config_write_mutual_exclusion_rejected
    (st : Option AzureConfig) (req : ConfigRequest) (s a : String)
    (hs : req.clientSecret = some s) (hs0 : s ≠ "")
    (ha : req.identityTokenAudience = some a) (ha0 : a ≠ "") :
    (configWriteStep st req).1 = st ∧
    ((configWriteStep st req).2).isSome = true ∧
    configReadData (configWriteStep st req).1 = configReadData st := by
  have hfail : ∀ c, createOrUpdate st req ≠ .ok c := by
    intro c hc
    obtain ⟨rptl, ittl, rowin, rper, h1, h2, h3, h4, hceq, hME, hROT, hENV⟩ :=
      createOrUpdate_ok_inversion st req c hc
    apply hME
    constructor
    · rw [hceq, applyDefaults_clientSecret]
      simp only [mergeConfig]
      rw [hs]
      simp only [Option.getD_some]
      exact hs0
    · rw [hceq, applyDefaults_identityTokenAudience]
      simp only [mergeConfig]
      rw [ha]
      simp only [Option.getD_some]
      exact ha0
  obtain ⟨hl, hr⟩ := configWriteStep_fails_of_not_ok st req hfail
  exact ⟨hl, hr, by rw [hl]⟩

/-- Witness for C1 at the test suite's request: both secret and audience
non-empty; the write fails and the (empty) prior state is what a read
still returns. -/
theorem config_write_mutual_exclusion_rejected_witness :
    (configWriteStep none reqMutualExclusive).1 = none ∧
    ((configWriteStep none reqMutualExclusive).2).isSome = true ∧
    configReadData (configWriteStep none reqMutualExclusive).1 =
      configReadData none :=
  config_write_mutual_exclusion_rejected none reqMutualExclusive
    "testClientSecret" "vault-azure-secrets-d0f0d253" rfl (by decide) rfl (by decide)

/-- C7: a configuration create supplying tenant_id, the reserved resource
field and a bare numeric rotation_period — without this engine's rotation
contract fields — fails validation and is not persisted. -/
theorem config_rotation_contract_rejected
    (st : Option AzureConfig) (req : ConfigRequest) (r : String) (n : Nat)
    (hres : req.resource = some r)
    (hrp : req.rotationPeriod = some (.seconds n))
    (hsched : req.rotationSchedule = none)
    (hdis : req.rotationDisabled = none) :
    (configWriteStep st req).1 = st ∧
    ((configWriteStep st req).2).isSome = true := by
  apply configWriteStep_fails_of_not_ok
  intro c hc
  obtain ⟨rptl, ittl, rowin, rper, h1, h2, h3, h4, hceq, hME, hROT, hENV⟩ :=
    createOrUpdate_ok_inversion st req c hc
  exact hROT ⟨by simp [hres], by simp [hrp], hsched, hdis⟩

/-- Witness for C7 at the test suite's request: tenant_id = "tid",
resource = "res", rotation_period = 10; the write fails and nothing is
persisted. -/
theorem config_rotation_contract_rejected_witness :
    (configWriteStep none reqRotationContract).1 = none ∧
    ((configWriteStep none reqRotationContract).2).isSome = true :=
  config_rotation_contract_rejected none reqRotationContract "res" 10
    rfl rfl rfl rfl

/-- C5: for a configuration whose environment is the China, public or US
government cloud (and whose required identifiers are present), the
resolved client settings' graph URI is the respective known endpoint;
and for every non-empty environment outside the fixed enumeration, a
configuration write fails and is not persisted. -/
theorem config_environment_clouds :
    (∀ c : AzureConfig, c.subscriptionId ≠ "" → c.tenantId ≠ "" →
      ((c.environment = "AZURECHINACLOUD" →
          (getClientSettings c).map ClientSettings.graphURI =
            .ok "https://microsoftgraph.chinacloudapi.cn") ∧
       (c.environment = "AZUREPUBLICCLOUD" →
          (getClientSettings c).map ClientSettings.graphURI =
            .ok "https://graph.microsoft.com") ∧
       (c.environment = "AZUREUSGOVERNMENTCLOUD" →
          (getClientSettings c).map ClientSettings.graphURI =
            .ok "https://graph.microsoft.us"))) ∧
    (∀ (st : Option AzureConfig) (req : ConfigRequest) (e : String),
      req.environment = some e → e ≠ "" → e ∉ azureEnvironments →
      (configWriteStep st req).1 = st ∧
      ((configWriteStep st req).2).isSome = true) := by
  constructor
  · intro c hsub hten
    refine ⟨?_, ?_, ?_⟩ <;> intro henv <;>
      (unfold getClientSettings; rw [if_neg hsub, if_neg hten, henv]) <;> rfl
  · intro st req e henv he0 henm
    apply configWriteStep_fails_of_not_ok
    intro c hc
    obtain ⟨rptl, ittl, rowin, rper, h1, h2, h3, h4, hceq, hME, hROT, hENV⟩ :=
      createOrUpdate_ok_inversion st req c hc
    apply hENV
    constructor
    · rw [hceq, applyDefaults_environment]
      simp only [mergeConfig]
      rw [henv]
      simp only [Option.getD_some]
      exact he0
    · rw [hceq, applyDefaults_environment]
      simp only [mergeConfig]
      rw [henv]
      simp only [Option.getD_some]
      exact henm

/-- Witness for C5: the resolved graph URI of a concrete China-cloud
configuration, and the rejected write of an unrecognized environment. -/
theorem config_environment_clouds_witness :
    (getClientSettings cfgChinaExample).map ClientSettings.graphURI =
      .ok "https://microsoftgraph.chinacloudapi.cn" ∧
    (configWriteStep none reqInvalidEnv).1 = none ∧
    ((configWriteStep none reqInvalidEnv).2).isSome = true := by
  refine ⟨(config_environment_clouds.1 cfgChinaExample (by decide) (by decide)).1 rfl,
    ?_, ?_⟩
  · exact (config_environment_clouds.2 none reqInvalidEnv "invalidEnv"
      rfl (by decide) (by decide)).1
  · exact (config_environment_clouds.2 none reqInvalidEnv "invalidEnv"
      rfl (by decide) (by decide)).2

/-- C3: every configuration create that omits root_password_ttl (and
succeeds) stores the six-month default: a subsequent read returns
root_password_ttl = 15768000. -/
theorem config_create_default_root_password_ttl
    (req : ConfigRequest) (h0 : req.rootPasswordTtl = none)
    (hok : (configWriteStep none req).2 = none) :
    (configReadData (configWriteStep none req).1).lookup "root_password_ttl" =
      some (.nat 15768000) := by
  obtain ⟨c, hc, hfst⟩ := configWriteStep_ok none req hok
  obtain ⟨rptl, ittl, rowin, rper, h1, h2, h3, h4, hceq, -, -, -⟩ :=
    createOrUpdate_ok_inversion none req c hc
  rw [h0, parseField_none_eq] at h1
  injection h1 with h1
  have hcr : c.rootPasswordTtl = 15768000 := by
    rw [hceq, applyDefaults_rootPasswordTtl]
    simp only [mergeConfig]
    rw [← h1]
    simp [zeroConfig, defaultRootPasswordTtl]
  have hl : (configReadData (some c)).lookup "root_password_ttl" =
      some (.nat c.rootPasswordTtl) := rfl
  rw [hfst, hl, hcr]

/-- Witness for C3 at the test suite's create request (no
root_password_ttl supplied): the read yields the six-month default. -/
theorem config_create_default_root_password_ttl_witness :
    (configReadData (configWriteStep none reqRootDefault).1).lookup
      "root_password_ttl" = some (.nat 15768000) :=
  config_create_default_root_password_ttl reqRootDefault rfl (by decide)

/-- C9: every configuration write supplying root_password_ttl as the
duration string "1m" (and succeeding) normalizes it to integer seconds:
a subsequent read returns root_password_ttl = 60. -/
theorem config_root_password_ttl_duration_string
    (st : Option AzureConfig) (req : ConfigRequest)
    (h0 : req.rootPasswordTtl = some (.str "1m"))
    (hok : (configWriteStep st req).2 = none) :
    (configReadData (configWriteStep st req).1).lookup "root_password_ttl" =
      some (.nat 60) := by
  obtain ⟨c, hc, hfst⟩ := configWriteStep_ok st req hok
  obtain ⟨rptl, ittl, rowin, rper, h1, h2, h3, h4, hceq, -, -, -⟩ :=
    createOrUpdate_ok_inversion st req c hc
  rw [h0] at h1
  have hparse : parseField (some (DurationInput.str "1m"))
      ((st.getD zeroConfig).rootPasswordTtl) = .ok 60 := rfl
  rw [hparse] at h1
  injection h1 with h1
  have hcr : c.rootPasswordTtl = 60 := by
    rw [hceq, applyDefaults_rootPasswordTtl]
    simp only [mergeConfig]
    rw [← h1]
    decide
  have hl : (configReadData (some c)).lookup "root_password_ttl" =
      some (.nat c.rootPasswordTtl) := rfl
  rw [hfst, hl, hcr]

/-- Witness for C9 at the test suite's request: root_password_ttl = "1m"
on create reads back as 60 seconds. -/
theorem config_root_password_ttl_duration_string_witness :
    (configReadData (configWriteStep none reqRootTtlOneMinute).1).lookup
      "root_password_ttl" = some (.nat 60) :=
  config_root_password_ttl_duration_string none reqRootTtlOneMinute rfl (by decide)

/-- C8: a configuration create with no client_id and no client_secret but
with identity_token_ttl and identity_token_audience set succeeds, and a
subsequent read returns those two federated-identity fields with the
written values and client_id as the empty string. -/
theorem config_wif_roundtrip (sub ten aud : String) (n : Nat) :
    (configWriteStep none (wifRequest sub ten aud n)).2 = none ∧
    (configReadData (configWriteStep none (wifRequest sub ten aud n)).1).lookup
      "identity_token_audience" = some (.str aud) ∧
    (configReadData (configWriteStep none (wifRequest sub ten aud n)).1).lookup
      "identity_token_ttl" = some (.nat n) ∧
    (configReadData (configWriteStep none (wifRequest sub ten aud n)).1).lookup
      "client_id" = some (.str "") :=
  ⟨rfl, rfl, rfl, rfl⟩

/-- C2: for every stored configuration and every update request carrying
only a subset of the fields, after a successful update the stored record
has exactly the supplied fields changed to the supplied (normalized)
values and every unspecified field identical to its prior value.  (The
`rootPasswordTtl ≠ 0` hypothesis is an invariant of every stored record,
since the write path default-fills a zero TTL.) -/
theorem config_update_frame
    (c : AzureConfig) (req : ConfigRequest)
    (h0 : c.rootPasswordTtl ≠ 0)
    (hok : (configWriteStep (some c) req).2 = none) :
    (req.subscriptionId = none →
      ((configWriteStep (some c) req).1).map AzureConfig.subscriptionId =
        some c.subscriptionId) ∧
    (∀ v, req.tenantId = some v →
      ((configWriteStep (some c) req).1).map AzureConfig.tenantId = some v) ∧
    (req.tenantId = none →
      ((configWriteStep (some c) req).1).map AzureConfig.tenantId =
        some c.tenantId) ∧
    (∀ v, req.subscriptionId = some v →
      ((configWriteStep (some c) req).1).map AzureConfig.subscriptionId = some v) ∧
    (req.clientId = none →
      ((configWriteStep (some c) req).1).map AzureConfig.clientId =
        some c.clientId) ∧
    (∀ v, req.clientId = some v →
      ((configWriteStep (some c) req).1).map AzureConfig.clientId = some v) ∧
    (req.clientSecret = none →
      ((configWriteStep (some c) req).1).map AzureConfig.clientSecret =
        some c.clientSecret) ∧
    (∀ v, req.clientSecret = some v →
      ((configWriteStep (some c) req).1).map AzureConfig.clientSecret = some v) ∧
    (req.environment = none →
      ((configWriteStep (some c) req).1).map AzureConfig.environment =
        some c.environment) ∧
    (∀ v, req.environment = some v →
      ((configWriteStep (some c) req).1).map AzureConfig.environment = some v) ∧
    (req.rootPasswordTtl = none →
      ((configWriteStep (some c) req).1).map AzureConfig.rootPasswordTtl =
        some c.rootPasswordTtl) ∧
    (∀ m : Nat, m ≠ 0 → req.rootPasswordTtl = some (.seconds m) →
      ((configWriteStep (some c) req).1).map AzureConfig.rootPasswordTtl = some m) ∧
    (req.identityTokenAudience = none →
      ((configWriteStep (some c) req).1).map AzureConfig.identityTokenAudience =
        some c.identityTokenAudience) ∧
    (∀ v, req.identityTokenAudience = some v →
      ((configWriteStep (some c) req).1).map AzureConfig.identityTokenAudience =
        some v) ∧
    (req.identityTokenTtl = none →
      ((configWriteStep (some c) req).1).map AzureConfig.identityTokenTtl =
        some c.identityTokenTtl) ∧
    (∀ m : Nat, req.identityTokenTtl = some (.seconds m) →
      ((configWriteStep (some c) req).1).map AzureConfig.identityTokenTtl =
        some m) ∧
    (req.rotationWindow = none →
      ((configWriteStep (some c) req).1).map AzureConfig.rotationWindow =
        some c.rotationWindow) ∧
    (∀ m : Nat, req.rotationWindow = some (.seconds m) →
      ((configWriteStep (some c) req).1).map AzureConfig.rotationWindow =
        some m) ∧
    (req.rotationPeriod = none →
      ((configWriteStep (some c) req).1).map AzureConfig.rotationPeriod =
        some c.rotationPeriod) ∧
    (∀ m : Nat, req.rotationPeriod = some (.seconds m) →
      ((configWriteStep (some c) req).1).map AzureConfig.rotationPeriod =
        some m) ∧
    (req.rotationSchedule = none →
      ((configWriteStep (some c) req).1).map AzureConfig.rotationSchedule =
        some c.rotationSchedule) ∧
    (∀ v, req.rotationSchedule = some v →
      ((configWriteStep (some c) req).1).map AzureConfig.rotationSchedule =
        some v) ∧
    (req.rotationDisabled = none →
      ((configWriteStep (some c) req).1).map AzureConfig.rotationDisabled =
        some c.rotationDisabled) ∧
    (∀ b, req.rotationDisabled = some b →
      ((configWriteStep (some c) req).1).map AzureConfig.rotationDisabled =
        some b) := by
  obtain ⟨c2, hc, hfst⟩ := configWriteStep_ok (some c) req hok
  obtain ⟨rptl, ittl, rowin, rper, h1, h2, h3, h4, hceq, -, -, -⟩ :=
    createOrUpdate_ok_inversion (some c) req c2 hc
  simp only [Option.getD_some] at h1 h2 h3 h4 hceq
  subst hceq
  rw [hfst]
  refine ⟨?_, ?_, ?_, ?_, ?_, ?_, ?_, ?_, ?_, ?_, ?_, ?_, ?_, ?_, ?_, ?_, ?_,
    ?_, ?_, ?_, ?_, ?_, ?_, ?_⟩
  · intro h; simp [applyDefaults_subscriptionId, mergeConfig, h]
  · intro v h; simp [applyDefaults_tenantId, mergeConfig, h]
  · intro h; simp [applyDefaults_tenantId, mergeConfig, h]
  · intro v h; simp [applyDefaults_subscriptionId, mergeConfig, h]
  · intro h; simp [applyDefaults_clientId, mergeConfig, h]
  · intro v h; simp [applyDefaults_clientId, mergeConfig, h]
  · intro h; simp [applyDefaults_clientSecret, mergeConfig, h]
  · intro v h; simp [applyDefaults_clientSecret, mergeConfig, h]
  · intro h; simp [applyDefaults_environment, mergeConfig, h]
  · intro v h; simp [applyDefaults_environment, mergeConfig, h]
  · intro h
    rw [h, parseField_none_eq] at h1
    injection h1 with h1
    simp [applyDefaults_rootPasswordTtl, mergeConfig, ← h1, h0]
  · intro m hm h
    rw [h, parseField_seconds_eq] at h1
    injection h1 with h1
    simp [applyDefaults_rootPasswordTtl, mergeConfig, ← h1, hm]
  · intro h; simp [applyDefaults_identityTokenAudience, mergeConfig, h]
  · intro v h; simp [applyDefaults_identityTokenAudience, mergeConfig, h]
  · intro h
    rw [h, parseField_none_eq] at h2
    injection h2 with h2
    simp [applyDefaults_identityTokenTtl, mergeConfig, ← h2]
  · intro m h
    rw [h, parseField_seconds_eq] at h2
    injection h2 with h2
    simp [applyDefaults_identityTokenTtl, mergeConfig, ← h2]
  · intro h
    rw [h, parseField_none_eq] at h3
    injection h3 with h3
    simp [applyDefaults_rotationWindow, mergeConfig, ← h3]
  · intro m h
    rw [h, parseField_seconds_eq] at h3
    injection h3 with h3
    simp [applyDefaults_rotationWindow, mergeConfig, ← h3]
  · intro h
    rw [h, parseField_none_eq] at h4
    injection h4 with h4
    simp [applyDefaults_rotationPeriod, mergeConfig, ← h4]
  · intro m h
    rw [h, parseField_seconds_eq] at h4
    injection h4 with h4
    simp [applyDefaults_rotationPeriod, mergeConfig, ← h4]
  · intro h; simp [applyDefaults_rotationSchedule, mergeConfig, h]
  · intro v h; simp [applyDefaults_rotationSchedule, mergeConfig, h]
  · intro h; simp [applyDefaults_rotationDisabled, mergeConfig, h]
  · intro b h; simp [applyDefaults_rotationDisabled, mergeConfig, h]

/-- Witness for C2: updating the full test configuration with a request
that supplies only tenant_id changes tenant_id and leaves subscription_id
at its prior value. -/
theorem config_update_frame_witness :
    ((configWriteStep (some cfgFullExample) reqTenantOnly).1).map
      AzureConfig.subscriptionId = some cfgFullExample.subscriptionId ∧
    ((configWriteStep (some cfgFullExample) reqTenantOnly).1).map
      AzureConfig.tenantId = some "800e371d-ee51-4145-9ac8-5c43e4ceb79b" := by
  have h := config_update_frame cfgFullExample reqTenantOnly (by decide) (by decide)
  exact ⟨h.1 rfl, h.2.1 "800e371d-ee51-4145-9ac8-5c43e4ceb79b" rfl⟩

end AzureSecrets
